import Mathlib

/-!
Verification of the semantic-caching RAG chatbot
(`semantic_caching/RAG_chatbot_with_semantic_caching/cached_rag_chatbot_chroma.py`).

The file shallowly embeds the orchestrator of `CachedRAGChatbot`: the LangGraph
state machine (nodes `generate_query_or_respond`, `retrieve`, `rewrite_question`,
`generate_answer`, `generate_fallback`, conditional edge `grade_documents`), the
two public entry points `query` and `query_stream`, the CSV cache-load path, and
a spec-modelled `SemanticCache` (the module `semantic_cache.py` is imported by the
chatbot but its source is not part of the verified tree).

External collaborators (embedding provider, retriever, response model, grader
model) are opaque fallible functions collected in an `Env`; machine runs are
modelled as a fuel-indexed step function, the fuel playing the role of the
LangGraph `recursion_limit` (set to 50 at both call sites in the source).
-/

set_option maxRecDepth 4096

namespace CachedRag

/-- A LangChain message: the source builds `HumanMessage`s, model-produced
`AIMessage`s (which may carry a tool call with its query argument), and the
`ToolMessage` appended by the `ToolNode`. -/
inductive Msg where
  | human (content : String)
  | ai (content : String) (tool_call : Option String)
  | tool (content : String)
deriving DecidableEq, Repr

instance : Inhabited Msg := ⟨Msg.human ""⟩

/-- The `.content` attribute of a message. -/
def Msg.content : Msg → String
  | .human c => c
  | .ai c _ => c
  | .tool c => c

/-- The tool call carried by a message (`AIMessage.tool_calls`, reduced to the
single retrieval query the graph ever issues); `none` for plain messages. -/
def Msg.toolCallOf : Msg → Option String
  | .ai _ t => t
  | _ => none

/-- Shape of a response-model reply in `generate_query_or_respond`: text content
plus an optional tool-invocation request (the retrieval query). -/
structure AIResp where
  content : String
  tool_call : Option String
deriving DecidableEq, Repr

/-- `ExtendedState` of the source: the accumulated message list and the retry
counter (reducer `operator.add`, so node updates add to it). -/
structure ConvState where
  messages : List Msg
  retry_count : Nat
deriving DecidableEq, Repr

/-- The external collaborators, as opaque functions.  Each model call may fail,
returning the raised exception text in `Except.error`.  `embed` and `dist` serve
the spec-modelled `SemanticCache`. -/
structure Env where
  embed : String → List Rat
  dist : List Rat → List Rat → Rat
  respond : List Msg → Except String AIResp
  retrieveDocs : String → Except String String
  gradeModel : String → Except String String
  rewriteModel : String → Except String String
  generateModel : String → Except String String
  fallbackModel : String → Except String String

/-- `GRADE_PROMPT.format(question=..., context=...)` of the source. -/
def GRADE_PROMPT (question context : String) : String :=
  "You are a grader assessing relevance of a retrieved document to a user question. \n " ++
  "Here is the retrieved document: \n\n " ++ context ++ " \n\n" ++
  "Here is the user question: " ++ question ++ " \n" ++
  "If the document contains keyword(s) or semantic meaning related to the user question, grade it as relevant. \n" ++
  "Give a binary score yes or no score to indicate whether the document is relevant to the question."

/-- `REWRITE_PROMPT.format(question=...)` of the source. -/
def REWRITE_PROMPT (question : String) : String :=
  "Look at the input and try to reason about the underlying semantic intent / meaning.\n" ++
  "Here is the initial question:" ++ "\n ------- \n" ++ question ++ "\n ------- \n" ++
  "Formulate an improved question:"

/-- `GENERATE_PROMPT.format(question=..., context=...)` of the source. -/
def GENERATE_PROMPT (question context : String) : String :=
  "You are a helpful TaskFlow assistant for question-answering tasks. " ++
  "Use the following pieces of retrieved context to answer the question. " ++
  "If you do not know the answer, just say that you do not know. " ++
  "Use three sentences maximum and keep the answer concise.\n" ++
  "Question: " ++ question ++ " \nContext: " ++ context

/-- `FALLBACK_PROMPT.format(question=...)` of the source. -/
def FALLBACK_PROMPT (question : String) : String :=
  "You are a helpful TaskFlow assistant. " ++
  "A user asked the following question, but we could not find relevant information in our documentation.\n" ++
  "Question: " ++ question ++ "\n\nProvide a helpful response."

/-- The graph nodes of the source workflow. -/
inductive Node where
  | generate_query_or_respond
  | retrieve
  | rewrite_question
  | generate_answer
  | generate_fallback
deriving DecidableEq, Repr

/-- `grade_documents` of the source, the conditional edge run after `retrieve`:
reads the original question (message 0) and the most recent message, returns
`generate_fallback` when `retry_count >= max_retries` without calling the grader
model, and otherwise routes on the grader verdict (`"yes"` versus anything
else). -/
def grade_documents (env : Env) (max_retries : Nat) (s : ConvState) : Except String Node :=
  let question := (s.messages.getD 0 default).content
  let context := (s.messages.getLastD default).content
  if s.retry_count ≥ max_retries then
    Except.ok Node.generate_fallback
  else
    match env.gradeModel (GRADE_PROMPT question context) with
    | Except.error e => Except.error e
    | Except.ok score =>
        if score = "yes" then Except.ok Node.generate_answer
        else Except.ok Node.rewrite_question

/-- One node execution of the source workflow.  Returns the update the node
emits — the appended messages and the `retry_count` increment — together with
the successor node (`none` meaning `END`).  The conditional edges of the graph
(`tools_condition` after `generate_query_or_respond`, `grade_documents` after
`retrieve`) are resolved here to determine the successor. -/
def execNode (env : Env) (max_retries : Nat) :
    Node → ConvState → Except String (List Msg × Nat × Option Node)
  | Node.generate_query_or_respond, s =>
    match env.respond s.messages with
    | Except.error e => Except.error e
    | Except.ok r =>
        Except.ok ([Msg.ai r.content r.tool_call], 0,
          if r.tool_call.isSome then some Node.retrieve else none)
  | Node.retrieve, s =>
    let q := ((s.messages.getLastD default).toolCallOf).getD ""
    match env.retrieveDocs q with
    | Except.error e => Except.error e
    | Except.ok ctx =>
        match grade_documents env max_retries ⟨s.messages ++ [Msg.tool ctx], s.retry_count⟩ with
        | Except.error e => Except.error e
        | Except.ok next => Except.ok ([Msg.tool ctx], 0, some next)
  | Node.rewrite_question, s =>
    let question := (s.messages.getD 0 default).content
    match env.rewriteModel (REWRITE_PROMPT question) with
    | Except.error e => Except.error e
    | Except.ok newQ => Except.ok ([Msg.human newQ], 1, some Node.generate_query_or_respond)
  | Node.generate_answer, s =>
    let question := (s.messages.getD 0 default).content
    let context := (s.messages.getLastD default).content
    match env.generateModel (GENERATE_PROMPT question context) with
    | Except.error e => Except.error e
    | Except.ok ans => Except.ok ([Msg.ai ans none], 0, none)
  | Node.generate_fallback, s =>
    let question := (s.messages.getD 0 default).content
    match env.fallbackModel (FALLBACK_PROMPT question) with
    | Except.error e => Except.error e
    | Except.ok ans => Except.ok ([Msg.ai ans none], 0, none)

/-- One chunk of `graph.stream(...)`: the node that ran, the update (delta)
messages it returned, and the accumulated state after merging the update. -/
structure TraceEntry where
  node : Node
  delta : List Msg
  state : ConvState
deriving DecidableEq, Repr

/-- Message of LangGraph when the `recursion_limit` is exceeded. -/
def recursionLimitMsg : String :=
  "Recursion limit of 50 reached without hitting a stop condition. You can increase the limit by setting the recursion_limit config key."

/-- The graph run as observed through `graph.stream`: the list of per-node
update chunks, and `some e` when the run raised exception `e` (after the listed
chunks were already streamed).  The fuel models the LangGraph `recursion_limit`:
running out of fuel with a successor node pending raises the recursion-limit
error. -/
def runStream (env : Env) (max_retries : Nat) :
    Nat → Node → ConvState → List TraceEntry × Option String
  | 0, _, _ => ([], some recursionLimitMsg)
  | fuel+1, n, s =>
    match execNode env max_retries n s with
    | Except.error e => ([], some e)
    | Except.ok (delta, inc, next) =>
        let s' : ConvState := ⟨s.messages ++ delta, s.retry_count + inc⟩
        match next with
        | none => ([⟨n, delta, s'⟩], none)
        | some n' =>
            let rest := runStream env max_retries fuel n' s'
            (⟨n, delta, s'⟩ :: rest.1, rest.2)

/-- `config = ("recursion_limit": 50)` used by both `query` and `query_stream`. -/
def recursionLimit : Nat := 50

/-- A cache entry: `(question, answer, embedding)`. -/
structure CacheEntry where
  prompt : String
  response : String
  vec : List Rat
deriving DecidableEq, Repr

/-- The semantic cache store: distance threshold fixed at construction plus the
stored entries. -/
structure Cache where
  distance_threshold : Rat
  entries : List CacheEntry
deriving DecidableEq, Repr

/-- The best match reported by a cache lookup. -/
structure CacheMatch where
  prompt : String
  response : String
  vector_distance : Rat
  cosine_similarity : Rat
deriving DecidableEq, Repr

/-- Result of `SemanticCache.check`. -/
structure CacheLookup where
  hit : Bool
  best_match : Option CacheMatch
deriving DecidableEq, Repr

/-- Nearest stored entry to the query vector, ties broken in favour of the
first-inserted entry. -/
def nearestEntry (env : Env) (entries : List CacheEntry) (v : List Rat) :
    Option (CacheEntry × Rat) :=
  entries.foldl (fun acc e =>
    let d := env.dist v e.vec
    match acc with
    | none => some (e, d)
    | some p => if d < p.2 then some (e, d) else acc) none

/-- Modelled from the spec: `SemanticCache.check` (file `semantic_cache.py`, not
part of the verified tree).  Embeds the query, finds the nearest stored entry by
vector distance, reports `hit` iff that distance is within
`distance_threshold`; on an empty store it reports a miss with no best match.
Similarity is reported as one minus the distance (the consistent monotone
projection the spec allows).  The lookup does not mutate the store. -/
def cacheCheck (env : Env) (c : Cache) (q : String) : CacheLookup :=
  match nearestEntry env c.entries (env.embed q) with
  | none => ⟨false, none⟩
  | some p => ⟨decide (p.2 ≤ c.distance_threshold), some ⟨p.1.prompt, p.1.response, p.2, 1 - p.2⟩⟩

/-- Modelled from the spec: `SemanticCache.add_pair` — computes the embedding
and appends a new entry. -/
def add_pair (env : Env) (c : Cache) (q a : String) : Cache :=
  ⟨c.distance_threshold, c.entries ++ [⟨q, a, env.embed q⟩]⟩

/-- Modelled from the spec: `SemanticCache.hydrate_from_pairs` — `add_pair` for
each pair in order. -/
def hydrate_from_pairs (env : Env) (c : Cache) (ps : List (String × String)) : Cache :=
  ps.foldl (fun acc p => add_pair env acc p.1 p.2) c

/-- The chatbot instance state: its cache, the configured `max_retries`, and
whether `_setup_graph` has run (`self.graph is not None`). -/
structure CachedRAGChatbot where
  cache : Cache
  max_retries : Nat
  graphInitialized : Bool
deriving DecidableEq, Repr

/-- `add_to_cache` of the source: delegates to `SemanticCache.add_pair`. -/
def add_to_cache (env : Env) (bot : CachedRAGChatbot) (q a : String) : CachedRAGChatbot :=
  ⟨add_pair env bot.cache q a, bot.max_retries, bot.graphInitialized⟩

/-- `load_cache_pairs` of the source: delegates to `hydrate_from_pairs`. -/
def load_cache_pairs (env : Env) (bot : CachedRAGChatbot) (ps : List (String × String)) :
    CachedRAGChatbot :=
  ⟨hydrate_from_pairs env bot.cache ps, bot.max_retries, bot.graphInitialized⟩

/-- The `cache_info` dictionary returned on a hit. -/
structure CacheInfo where
  matched_question : String
  distance : Rat
  similarity : Rat
deriving DecidableEq, Repr

/-- Return value of `query`. -/
structure QueryResult where
  answer : String
  cache_hit : Bool
  cache_info : Option CacheInfo
deriving DecidableEq, Repr

/-- Lower-casing, character by character (Python `str.lower()`). -/
def strLower (s : String) : String := String.mk (s.data.map Char.toLower)

/-- Substring test: does `s` contain `pat`?  (Python `pat in s`.) -/
def strContains (s pat : String) : Bool :=
  (List.range (s.data.length + 1)).any (fun i => pat.data.isPrefixOf (s.data.drop i))

/-- The except-clause test of the source: `"recursion" in str(e).lower()`. -/
def containsRecursion (e : String) : Bool :=
  strContains (strLower e) "recursion"

/-- The degraded answer `query` returns when the caught exception mentions the
recursion limit. -/
def tooComplexAnswer : String :=
  "I encountered an error while searching for an answer. The question might be too complex or outside our documentation scope. Please try:\n• Rephrasing your question\n• Asking about specific TaskFlow features\n• Breaking down complex questions"

/-- The degraded answer `query_stream` yields in its `error` event. -/
def streamErrMsg : String :=
  "I encountered an error while searching. Please try rephrasing your question or asking about specific TaskFlow features."

/-- The `ValueError` raised when `self.graph is None`. -/
def graphNotInitializedMsg : String := "Graph not initialized. Load vectorstore first."

/-- `query` of the source.  Checks the semantic cache first; on a hit it returns
the cached response without touching the graph.  On a miss it raises when the
graph was never set up, otherwise streams the graph with recursion limit 50,
extracts the final answer from the last update chunk, and converts a caught
exception whose text mentions "recursion" into a degraded in-band answer while
re-raising every other exception.  The second component is the chatbot state
after the call (threaded explicitly: the method performs no state mutation). -/
def query (env : Env) (bot : CachedRAGChatbot) (question : String) :
    Except String QueryResult × CachedRAGChatbot :=
  let cache_results := cacheCheck env bot.cache question
  if cache_results.hit then
    match cache_results.best_match with
    | some best =>
        (Except.ok ⟨best.response, true,
          some ⟨best.prompt, best.vector_distance, best.cosine_similarity⟩⟩, bot)
    | none => (Except.error "AttributeError: NoneType object has no attribute response", bot)
  else if bot.graphInitialized = false then
    (Except.error graphNotInitializedMsg, bot)
  else
    let r := runStream env bot.max_retries recursionLimit
      Node.generate_query_or_respond ⟨[Msg.human question], 0⟩
    match r.2 with
    | none =>
        match r.1.getLast? with
        | some entry =>
            (Except.ok ⟨(entry.delta.getLastD default).content, false, none⟩, bot)
        | none => (Except.error "TypeError: NoneType object is not subscriptable", bot)
    | some e =>
        if containsRecursion e then (Except.ok ⟨tooComplexAnswer, false, none⟩, bot)
        else (Except.error e, bot)

/-- Events yielded by `query_stream`. -/
inductive Event where
  | cache_hit (answer : String) (info : CacheInfo)
  | cache_miss
  | node_update (node : Node) (messages : List Msg)
  | complete (answer : Option String)
  | error (answer : String)
deriving DecidableEq, Repr

/-- `query_stream` of the source, as the finite list of events the generator
yields together with `some e` when the generator raises exception `e` after
those events.  The third component is the chatbot state after the call. -/
def query_stream (env : Env) (bot : CachedRAGChatbot) (question : String) :
    List Event × Option String × CachedRAGChatbot :=
  let cache_results := cacheCheck env bot.cache question
  if cache_results.hit then
    match cache_results.best_match with
    | some best =>
        ([Event.cache_hit best.response
            ⟨best.prompt, best.vector_distance, best.cosine_similarity⟩], none, bot)
    | none => ([], some "AttributeError: NoneType object has no attribute response", bot)
  else if bot.graphInitialized = false then
    ([Event.cache_miss], some graphNotInitializedMsg, bot)
  else
    let r := runStream env bot.max_retries recursionLimit
      Node.generate_query_or_respond ⟨[Msg.human question], 0⟩
    let updates := r.1.map (fun e => Event.node_update e.node e.delta)
    let final_answer : Option String :=
      r.1.getLast?.map (fun e => (e.delta.getLastD default).content)
    match r.2 with
    | none => (Event.cache_miss :: updates ++ [Event.complete final_answer], none, bot)
    | some e =>
        if containsRecursion e then
          (Event.cache_miss :: updates ++ [Event.error streamErrMsg], none, bot)
        else (Event.cache_miss :: updates, some e, bot)

/-- Value bound to `row[key]` by `csv.DictReader`: raises `KeyError` when the
key is not a header column; otherwise the field at the last header position of
the key (`dict(zip(...))` keeps the last duplicate), with missing trailing
fields filled by the `restval` `None`. -/
def dictGet (fieldnames row : List String) (key : String) : Except String (Option String) :=
  match (fieldnames.reverse).findIdx? (fun f => f = key) with
  | none => Except.error ("KeyError: " ++ key)
  | some r => Except.ok (row.get? (fieldnames.length - 1 - r))

/-- Sequencing of a fallible row-parse over the rows, stopping at the first
failure (the behaviour of the source loop over the reader). -/
def mapExcept (f : List String → Except String (Option String × Option String)) :
    List (List String) → Except String (List (Option String × Option String))
  | [] => Except.ok []
  | a :: as =>
    match f a with
    | Except.error e => Except.error e
    | Except.ok b =>
        match mapExcept f as with
        | Except.error e => Except.error e
        | Except.ok bs => Except.ok (b :: bs)

/-- `load_cache_from_file` of the source, up to the pair list handed to
`hydrate_from_pairs`.  The file is modelled as its CSV records (lists of
fields); the first record is the header consumed by `csv.DictReader`, blank
records are skipped by the reader, and each remaining row contributes
`(row[\x22question\x22], row[\x22answer\x22])`. -/
def load_cache_from_file (file : List (List String)) :
    Except String (List (Option String × Option String)) :=
  match file with
  | [] => Except.ok []
  | header :: rows =>
    mapExcept (fun row =>
      match dictGet header row "question" with
      | Except.error e => Except.error e
      | Except.ok q =>
          match dictGet header row "answer" with
          | Except.error e => Except.error e
          | Except.ok a => Except.ok (q, a)) (rows.filter (fun r => !r.isEmpty))

/-! ### Concrete fixtures used by witnesses and counterexamples -/

/-- An environment whose grader always answers yes and whose response model
always requests retrieval. -/
def envYes : Env where
  embed := fun _ => [1]
  dist := fun _ _ => 0
  respond := fun _ => Except.ok ⟨"calling tool", some "widget query"⟩
  retrieveDocs := fun _ => Except.ok "context docs"
  gradeModel := fun _ => Except.ok "yes"
  rewriteModel := fun _ => Except.ok "better question"
  generateModel := fun _ => Except.ok "final answer"
  fallbackModel := fun _ => Except.ok "fallback answer"

/-- Like `envYes` but the grader always answers no. -/
def envNo : Env := { envYes with gradeModel := fun _ => Except.ok "no" }

/-- An empty cache with the default threshold `0.1`. -/
def emptyCache : Cache := ⟨mkRat 1 10, []⟩

/-- A cache holding the scenario pair of §8 of the design. -/
def seededCache : Cache :=
  ⟨mkRat 1 10, [⟨"What is TaskFlow?", "TaskFlow is a project tool.", [1]⟩]⟩

/-- A chatbot with an empty cache, `max_retries = 2`, graph set up. -/
def bot0 : CachedRAGChatbot := ⟨emptyCache, 2, true⟩

/-! ### Helper lemmas -/

/-- `cacheCheck` depends on the environment only through `embed` and `dist`. -/
lemma cacheCheck_congr (env env2 : Env) (c : Cache) (q : String)
    (h1 : env2.embed = env.embed) (h2 : env2.dist = env.dist) :
    cacheCheck env2 c q = cacheCheck env c q := by
  simp only [cacheCheck, nearestEntry, h1, h2]

/-- The second component of `query` is the unchanged chatbot state. -/
lemma query_snd (env : Env) (bot : CachedRAGChatbot) (q : String) :
    (query env bot q).2 = bot := by
  simp only [query]
  repeat' split
  all_goals rfl

/-- The third component of `query_stream` is the unchanged chatbot state. -/
lemma query_stream_snd (env : Env) (bot : CachedRAGChatbot) (q : String) :
    (query_stream env bot q).2.2 = bot := by
  simp only [query_stream]
  repeat' split
  all_goals rfl

/-- A reported hit always carries a best match. -/
lemma cacheCheck_hit_best (env : Env) (c : Cache) (q : String)
    (hhit : (cacheCheck env c q).hit = true) :
    ∃ best, (cacheCheck env c q).best_match = some best := by
  rcases hn : nearestEntry env c.entries (env.embed q) with _ | p
  · have hc : cacheCheck env c q = ⟨false, none⟩ := by
      unfold cacheCheck
      rw [hn]
    rw [hc] at hhit
    simp at hhit
  · have hc : cacheCheck env c q = ⟨decide (p.2 ≤ c.distance_threshold),
        some ⟨p.1.prompt, p.1.response, p.2, 1 - p.2⟩⟩ := by
      unfold cacheCheck
      rw [hn]
    exact ⟨_, by rw [hc]⟩

/-- Reduction of `query` on the cache-hit path. -/
lemma query_hit (env : Env) (bot : CachedRAGChatbot) (q : String) (best : CacheMatch)
    (hhit : (cacheCheck env bot.cache q).hit = true)
    (hb : (cacheCheck env bot.cache q).best_match = some best) :
    (query env bot q).1 = Except.ok ⟨best.response, true,
      some ⟨best.prompt, best.vector_distance, best.cosine_similarity⟩⟩ := by
  simp only [query]
  rw [hhit, hb]
  rfl

/-- Reduction of `query_stream` on the cache-hit path. -/
lemma query_stream_hit (env : Env) (bot : CachedRAGChatbot) (q : String) (best : CacheMatch)
    (hhit : (cacheCheck env bot.cache q).hit = true)
    (hb : (cacheCheck env bot.cache q).best_match = some best) :
    query_stream env bot q = ([Event.cache_hit best.response
      ⟨best.prompt, best.vector_distance, best.cosine_similarity⟩], none, bot) := by
  simp only [query_stream]
  rw [hhit, hb]
  rfl

/-- Pointwise-ok parses make `mapExcept` an ordinary map. -/
lemma mapExcept_map_ok (f : List String → Except String (Option String × Option String))
    (g : List String → Option String × Option String)
    (h : ∀ x, f x = Except.ok (g x)) :
    ∀ l, mapExcept f l = Except.ok (l.map g) := by
  intro l
  induction l with
  | nil => rfl
  | cons a as ih => simp [mapExcept, h a, ih]

/-! ### Claims -/

/-- C4: on a cache hit, `query` answers with the cached response, reports
`cache_hit = true` and the matched question, distance and similarity of the
best match, and never runs the state machine (the result is unchanged under any
replacement of the model and retrieval collaborators); on a miss, every
returned result has `cache_hit = false` and no `cache_info`. -/
theorem C4_query_cache_semantics (env : Env) (bot : CachedRAGChatbot) (q : String) :
    ((cacheCheck env bot.cache q).hit = true →
      ∃ best, (cacheCheck env bot.cache q).best_match = some best ∧
        (query env bot q).1 = Except.ok ⟨best.response, true,
          some ⟨best.prompt, best.vector_distance, best.cosine_similarity⟩⟩ ∧
        ∀ env2 : Env, env2.embed = env.embed → env2.dist = env.dist →
          (query env2 bot q).1 = (query env bot q).1) ∧
    ((cacheCheck env bot.cache q).hit = false →
      ∀ res, (query env bot q).1 = Except.ok res →
        res.cache_hit = false ∧ res.cache_info = none) := by
  constructor
  · intro hhit
    obtain ⟨best, hb⟩ := cacheCheck_hit_best env bot.cache q hhit
    refine ⟨best, hb, query_hit env bot q best hhit hb, ?_⟩
    intro env2 h1 h2
    have hc := cacheCheck_congr env env2 bot.cache q h1 h2
    rw [query_hit env2 bot q best (by rw [hc]; exact hhit) (by rw [hc]; exact hb),
      query_hit env bot q best hhit hb]
  · intro hmiss res hres
    simp only [query] at hres
    rw [hmiss] at hres
    rw [if_neg (by simp)] at hres
    rcases hg : bot.graphInitialized with _ | _
    · rw [hg] at hres
      simp at hres
    · rw [hg] at hres
      rw [if_neg (by simp)] at hres
      split at hres
      · split at hres
        · simp only [Prod.fst] at hres
          have h := Except.ok.inj hres
          rw [← h]
          exact ⟨rfl, rfl⟩
        · simp at hres
      · split at hres
        · simp only [Prod.fst] at hres
          have h := Except.ok.inj hres
          rw [← h]
          exact ⟨rfl, rfl⟩
        · simp at hres

/-- C4 witness: a seeded cache hit on the exact stored question. -/
theorem C4_query_cache_semantics_witness :
    (query envYes ⟨seededCache, 2, true⟩ "What is TaskFlow?").1 =
      Except.ok ⟨"TaskFlow is a project tool.", true,
        some ⟨"What is TaskFlow?", 0, 1 - 0⟩⟩ := by
  obtain ⟨best, hb, hq, -⟩ :=
    (C4_query_cache_semantics envYes ⟨seededCache, 2, true⟩ "What is TaskFlow?").1 (by decide)
  have hcheck : cacheCheck envYes (⟨seededCache, 2, true⟩ : CachedRAGChatbot).cache
      "What is TaskFlow?" =
      ⟨true, some ⟨"What is TaskFlow?", "TaskFlow is a project tool.", 0, 1 - 0⟩⟩ := rfl
  rw [hcheck] at hb
  have hbest : best = ⟨"What is TaskFlow?", "TaskFlow is a project tool.", 0, 1 - 0⟩ :=
    (Option.some_inj.mp hb).symm
  rw [hbest] at hq
  exact hq

/-- C6: on a cache miss with the graph never set up, `query` raises the
precondition `ValueError` and `query_stream` raises it right after its
`cache_miss` event; the failure is immediate (`ValueError` before any graph
run) and not retried. -/
theorem C6_precondition_error (env : Env) (bot : CachedRAGChatbot) (q : String)
    (hmiss : (cacheCheck env bot.cache q).hit = false)
    (hg : bot.graphInitialized = false) :
    (query env bot q).1 = Except.error graphNotInitializedMsg ∧
    query_stream env bot q = ([Event.cache_miss], some graphNotInitializedMsg, bot) := by
  constructor
  · simp only [query]
    rw [hmiss, hg]
    rfl
  · simp only [query_stream]
    rw [hmiss, hg]
    rfl

/-- C6 witness at an empty cache and an uninitialized chatbot. -/
theorem C6_precondition_error_witness :
    (query envYes ⟨emptyCache, 2, false⟩ "q").1 = Except.error graphNotInitializedMsg ∧
    query_stream envYes ⟨emptyCache, 2, false⟩ "q" =
      ([Event.cache_miss], some graphNotInitializedMsg, ⟨emptyCache, 2, false⟩) :=
  C6_precondition_error envYes ⟨emptyCache, 2, false⟩ "q" (by decide) rfl

/-- Grading at or above the retry cap routes to `generate_fallback` whatever
the grader model is — it is never consulted. -/
lemma grade_documents_cap (env : Env) (mr : Nat) (s : ConvState)
    (h : mr ≤ s.retry_count) :
    grade_documents env mr s = Except.ok Node.generate_fallback := by
  simp only [grade_documents]
  rw [if_pos h]

/-- Grading below the retry cap invokes the grader on the prompt built from
message 0 and the last message, and routes purely on the verdict. -/
lemma grade_documents_verdict (env : Env) (mr : Nat) (s : ConvState) (v : String)
    (hlt : s.retry_count < mr)
    (hv : env.gradeModel (GRADE_PROMPT (s.messages.getD 0 default).content
      (s.messages.getLastD default).content) = Except.ok v) :
    grade_documents env mr s =
      Except.ok (if v = "yes" then Node.generate_answer else Node.rewrite_question) := by
  simp only [grade_documents]
  rw [if_neg (by omega), hv]
  rcases eq_or_ne v "yes" with h | h <;> simp [h]

/-- C7: whenever grading runs with `retry_count < max_retries`, it invokes the
grader on the prompt built from the original question (message 0) and the most
recent message, and routes purely on the verdict: yes to `generate_answer`,
anything else to `rewrite_question`. -/
theorem C7_grade_routing (env : Env) (max_retries : Nat) (s : ConvState) (v : String)
    (hlt : s.retry_count < max_retries)
    (hg : env.gradeModel (GRADE_PROMPT (s.messages.getD 0 default).content
            (s.messages.getLastD default).content) = Except.ok v) :
    grade_documents env max_retries s =
      Except.ok (if v = "yes" then Node.generate_answer else Node.rewrite_question) :=
  grade_documents_verdict env max_retries s v hlt hg

/-- C7 witness: an always-yes grader routes a fresh state to `generate_answer`. -/
theorem C7_grade_routing_witness :
    grade_documents envYes 2 ⟨[Msg.human "q", Msg.tool "ctx"], 0⟩ =
      Except.ok (if "yes" = "yes" then Node.generate_answer else Node.rewrite_question) :=
  C7_grade_routing envYes 2 ⟨[Msg.human "q", Msg.tool "ctx"], 0⟩ "yes" (by decide) rfl

/-- C8 counterexample: a malformed persisted file — a data row missing the
answer field and a blank row — loads without any error: the short row is kept
with a `None` answer and the blank row is silently dropped, contradicting the
claimed fail-fast parse error naming the offending row. -/
theorem C8_counterexample :
    load_cache_from_file [["question", "answer"], ["only one field"], [], ["q2", "a2"]] =
      Except.ok [(some "only one field", none), (some "q2", some "a2")] := by
  rfl

/-- C8 as amended: with the standard `question,answer` header, loading never
fails whatever the data rows look like — each non-blank row is loaded as the
pair of its first two fields (missing fields becoming `None`), blank rows are
silently skipped, and the only possible load failure is a `KeyError` naming a
missing header column, not a row. -/
theorem C8_amended_load_total (rows : List (List String)) :
    load_cache_from_file (["question", "answer"] :: rows) =
      Except.ok ((rows.filter (fun r => !r.isEmpty)).map
        (fun row => (row.get? 0, row.get? 1))) := by
  unfold load_cache_from_file
  exact mapExcept_map_ok _ _ (fun x => rfl) _

/-- C9: `query` and `query_stream` leave the semantic cache (indeed the whole
chatbot state) unchanged, so repeating the identical query yields the identical
outcome — a miss misses again; the cache changes only through the dedicated
mutators, `add_to_cache` and `load_cache_pairs` delegating to the cache
operations. -/
theorem C9_cache_frame (env : Env) (bot : CachedRAGChatbot) (q a : String)
    (ps : List (String × String)) :
    (query env bot q).2.cache = bot.cache ∧
    (query_stream env bot q).2.2.cache = bot.cache ∧
    query env ((query env bot q).2) q = query env bot q ∧
    (add_to_cache env bot q a).cache = add_pair env bot.cache q a ∧
    (load_cache_pairs env bot ps).cache = hydrate_from_pairs env bot.cache ps := by
  refine ⟨by rw [query_snd], by rw [query_stream_snd], by rw [query_snd], rfl, rfl⟩

/-- C10: a cache hit is served before the initialization check, so `query` and
`query_stream` return the cached answer successfully even on a chatbot whose
graph was never set up. -/
theorem C10_hit_skips_init_check (env : Env) (bot : CachedRAGChatbot) (q : String)
    (hhit : (cacheCheck env bot.cache q).hit = true)
    (_hg : bot.graphInitialized = false) :
    ∃ best, (cacheCheck env bot.cache q).best_match = some best ∧
      (query env bot q).1 = Except.ok ⟨best.response, true,
        some ⟨best.prompt, best.vector_distance, best.cosine_similarity⟩⟩ ∧
      query_stream env bot q = ([Event.cache_hit best.response
        ⟨best.prompt, best.vector_distance, best.cosine_similarity⟩], none, bot) := by
  obtain ⟨best, hb⟩ := cacheCheck_hit_best env bot.cache q hhit
  exact ⟨best, hb, query_hit env bot q best hhit hb, query_stream_hit env bot q best hhit hb⟩

/-- Every state recorded in a run trace keeps the first message of the state
the run started from: node updates only append messages. -/
lemma runStream_msg0 (env : Env) (mr : Nat) :
    ∀ fuel n s, s.messages ≠ [] →
      ∀ e ∈ (runStream env mr fuel n s).1,
        e.state.messages.getD 0 default = s.messages.getD 0 default := by
  intro fuel
  induction fuel with
  | zero =>
    intro n s _ e he
    simp [runStream] at he
  | succ f ih =>
    intro n s hne e he
    simp only [runStream] at he
    cases hx : execNode env mr n s with
    | error err =>
      rw [hx] at he
      simp at he
    | ok t =>
      obtain ⟨delta, inc, next⟩ := t
      rw [hx] at he
      have hgd : (s.messages ++ delta).getD 0 default = s.messages.getD 0 default :=
        List.getD_append _ _ _ _ (List.length_pos.mpr hne)
      have hne2 : s.messages ++ delta ≠ [] := by
        intro hc
        exact hne (List.append_eq_nil.mp hc).1
      cases next with
      | none =>
        simp at he
        subst he
        exact hgd
      | some n2 =>
        simp at he
        rcases he with rfl | he2
        · exact hgd
        · exact (ih n2 ⟨s.messages ++ delta, s.retry_count + inc⟩ hne2 e he2).trans hgd

/-- C2: after any number of rewrite cycles, message index 0 of the conversation
state recorded at every executed transition is still the original input
question verbatim: the rewrite node appends a new user message and nothing ever
replaces or removes message 0. -/
theorem C2_message0_invariant (env : Env) (mr fuel : Nat) (q : String) (e : TraceEntry)
    (he : e ∈ (runStream env mr fuel Node.generate_query_or_respond
      ⟨[Msg.human q], 0⟩).1) :
    e.state.messages.getD 0 default = Msg.human q :=
  runStream_msg0 env mr fuel Node.generate_query_or_respond ⟨[Msg.human q], 0⟩
    (by simp) e he

/-- C2 witness: the state after two rewrite cycles of an always-no grader still
has the original question at index 0. -/
theorem C2_message0_invariant_witness :
    (⟨Node.rewrite_question, [Msg.human "better question"],
      ⟨[Msg.human "q", Msg.ai "calling tool" (some "widget query"),
        Msg.tool "context docs", Msg.human "better question"], 1⟩⟩ :
      TraceEntry).state.messages.getD 0 default = Msg.human "q" :=
  C2_message0_invariant envNo 2 recursionLimit "q" _ (by decide)

/-- Trace entries produced by the rewrite node. -/
def isRewrite : TraceEntry → Bool
  | ⟨Node.rewrite_question, _, _⟩ => true
  | _ => false

/-- Number of rewrite cycles recorded in a trace. -/
def countRewrites (t : List TraceEntry) : Nat := t.countP isRewrite

/-- The node of the last executed transition of a trace. -/
def lastNode (t : List TraceEntry) : Option Node := t.getLast?.map TraceEntry.node

/-- The retry counter after the last executed transition of a trace. -/
def lastRetry (t : List TraceEntry) : Option Nat :=
  t.getLast?.map (fun e => e.state.retry_count)

lemma lastNode_cons (a : TraceEntry) (l : List TraceEntry) (h : l ≠ []) :
    lastNode (a :: l) = lastNode l := by
  cases l with
  | nil => exact absurd rfl h
  | cons b m => simp only [lastNode, List.getLast?_cons_cons]

lemma lastRetry_cons (a : TraceEntry) (l : List TraceEntry) (h : l ≠ []) :
    lastRetry (a :: l) = lastRetry l := by
  cases l with
  | nil => exact absurd rfl h
  | cons b m => simp only [lastRetry, List.getLast?_cons_cons]

/-- Main cycle lemma for the retry bound: a run entered at
`generate_query_or_respond` with `retry_count + k = max_retries`, in an
environment whose response model always requests retrieval, whose grader never
answers yes, and whose collaborators never fail, performs exactly `k` further
rewrite cycles, terminates at `generate_fallback`, and ends with the retry
counter at `max_retries`. -/
lemma runStream_never_yes (env : Env) (mr : Nat)
    (H1 : ∀ m, ∃ c qq, env.respond m = Except.ok ⟨c, some qq⟩)
    (H2 : ∀ p, ∃ v, env.gradeModel p = Except.ok v ∧ v ≠ "yes")
    (H3 : ∀ qq, ∃ c, env.retrieveDocs qq = Except.ok c)
    (H4 : ∀ p, ∃ r, env.rewriteModel p = Except.ok r)
    (H5 : ∀ p, ∃ r, env.fallbackModel p = Except.ok r) :
    ∀ k fuel s, s.retry_count + k = mr → 3 * k + 3 ≤ fuel →
      ∃ t, runStream env mr fuel Node.generate_query_or_respond s = (t, none) ∧
        countRewrites t = k ∧ lastNode t = some Node.generate_fallback ∧
        lastRetry t = some mr := by
  intro k
  induction k with
  | zero =>
    intro fuel s hr hf
    obtain ⟨c1, q1, hresp⟩ := H1 s.messages
    have hexec1 : execNode env mr Node.generate_query_or_respond s =
        Except.ok ([Msg.ai c1 (some q1)], 0, some Node.retrieve) := by
      simp [execNode, hresp]
    obtain ⟨ctx, hret⟩ := H3 q1
    have hgrade : grade_documents env mr
        ⟨(s.messages ++ [Msg.ai c1 (some q1)]) ++ [Msg.tool ctx], s.retry_count + 0⟩ =
        Except.ok Node.generate_fallback :=
      grade_documents_cap env mr _ (by show mr ≤ s.retry_count + 0; omega)
    have hexec2 : execNode env mr Node.retrieve
        ⟨s.messages ++ [Msg.ai c1 (some q1)], s.retry_count + 0⟩ =
        Except.ok ([Msg.tool ctx], 0, some Node.generate_fallback) := by
      simp only [execNode, List.getLastD_concat, Msg.toolCallOf, Option.getD, hret, hgrade]
    obtain ⟨fb, hfb⟩ := H5 (FALLBACK_PROMPT
      ((((s.messages ++ [Msg.ai c1 (some q1)]) ++ [Msg.tool ctx]).getD 0 default).content))
    have hexec3 : execNode env mr Node.generate_fallback
        ⟨(s.messages ++ [Msg.ai c1 (some q1)]) ++ [Msg.tool ctx],
          s.retry_count + 0 + 0⟩ =
        Except.ok ([Msg.ai fb none], 0, none) := by
      simp only [execNode, hfb]
    obtain ⟨f1, rfl⟩ : ∃ f1, fuel = f1 + 1 := ⟨fuel - 1, by omega⟩
    obtain ⟨f2, rfl⟩ : ∃ f2, f1 = f2 + 1 := ⟨f1 - 1, by omega⟩
    obtain ⟨f3, rfl⟩ : ∃ f3, f2 = f3 + 1 := ⟨f2 - 1, by omega⟩
    simp only [runStream, hexec1, hexec2, hexec3]
    refine ⟨_, rfl, rfl, rfl, ?_⟩
    show some (s.retry_count + 0 + 0 + 0) = some mr
    exact congrArg some (by omega)
  | succ k ih =>
    intro fuel s hr hf
    obtain ⟨c1, q1, hresp⟩ := H1 s.messages
    have hexec1 : execNode env mr Node.generate_query_or_respond s =
        Except.ok ([Msg.ai c1 (some q1)], 0, some Node.retrieve) := by
      simp [execNode, hresp]
    obtain ⟨ctx, hret⟩ := H3 q1
    obtain ⟨v, hv, hvne⟩ := H2 (GRADE_PROMPT
      (((((s.messages ++ [Msg.ai c1 (some q1)]) ++ [Msg.tool ctx]).getD 0 default)).content)
      (((((s.messages ++ [Msg.ai c1 (some q1)]) ++ [Msg.tool ctx]).getLastD default)).content))
    have hgrade : grade_documents env mr
        ⟨(s.messages ++ [Msg.ai c1 (some q1)]) ++ [Msg.tool ctx], s.retry_count + 0⟩ =
        Except.ok Node.rewrite_question := by
      rw [grade_documents_verdict env mr
        ⟨(s.messages ++ [Msg.ai c1 (some q1)]) ++ [Msg.tool ctx], s.retry_count + 0⟩
        v (by show s.retry_count + 0 < mr; omega) hv]
      simp [hvne]
    have hexec2 : execNode env mr Node.retrieve
        ⟨s.messages ++ [Msg.ai c1 (some q1)], s.retry_count + 0⟩ =
        Except.ok ([Msg.tool ctx], 0, some Node.rewrite_question) := by
      simp only [execNode, List.getLastD_concat, Msg.toolCallOf, Option.getD, hret, hgrade]
    obtain ⟨newQ, hrw⟩ := H4 (REWRITE_PROMPT
      ((((s.messages ++ [Msg.ai c1 (some q1)]) ++ [Msg.tool ctx]).getD 0 default).content))
    have hexec3 : execNode env mr Node.rewrite_question
        ⟨(s.messages ++ [Msg.ai c1 (some q1)]) ++ [Msg.tool ctx],
          s.retry_count + 0 + 0⟩ =
        Except.ok ([Msg.human newQ], 1, some Node.generate_query_or_respond) := by
      simp only [execNode, hrw]
    obtain ⟨f1, rfl⟩ : ∃ f1, fuel = f1 + 1 := ⟨fuel - 1, by omega⟩
    obtain ⟨f2, rfl⟩ : ∃ f2, f1 = f2 + 1 := ⟨f1 - 1, by omega⟩
    obtain ⟨f3, rfl⟩ : ∃ f3, f2 = f3 + 1 := ⟨f2 - 1, by omega⟩
    obtain ⟨t, heq, hcount, hnode, hretry⟩ := ih f3
      ⟨((s.messages ++ [Msg.ai c1 (some q1)]) ++ [Msg.tool ctx]) ++ [Msg.human newQ],
        s.retry_count + 0 + 0 + 1⟩
      (by show s.retry_count + 0 + 0 + 1 + k = mr; omega) (by omega)
    have hne : t ≠ [] := by
      intro hnil
      rw [hnil] at hnode
      simp [lastNode] at hnode
    simp only [runStream, hexec1, hexec2, hexec3, heq]
    refine ⟨_, rfl, ?_, ?_, ?_⟩
    · simp only [countRewrites] at hcount
      simp [countRewrites, List.countP_cons, isRewrite]
      omega
    · rw [lastNode_cons _ _ (by simp), lastNode_cons _ _ (by simp),
        lastNode_cons _ _ hne]
      exact hnode
    · rw [lastRetry_cons _ _ (by simp), lastRetry_cons _ _ (by simp),
        lastRetry_cons _ _ hne]
      exact hretry

/-- C1: on a cache-miss query started with `retry_count = 0` in an environment
whose response model always requests retrieval, whose collaborators never fail,
and whose grader never answers yes, the orchestrator performs exactly
`max_retries` rewrite cycles (the counter ending at exactly `max_retries`),
terminates at `generate_fallback`, and never performs more; the fallback entry
of the grading step at `retry_count ≥ max_retries` holds for every grader
environment — the grader model is not consulted there. -/
theorem C1_retry_bound (env : Env) (mr fuel : Nat) (question : String)
    (H1 : ∀ m, ∃ c qq, env.respond m = Except.ok ⟨c, some qq⟩)
    (H2 : ∀ p, ∃ v, env.gradeModel p = Except.ok v ∧ v ≠ "yes")
    (H3 : ∀ qq, ∃ c, env.retrieveDocs qq = Except.ok c)
    (H4 : ∀ p, ∃ r, env.rewriteModel p = Except.ok r)
    (H5 : ∀ p, ∃ r, env.fallbackModel p = Except.ok r)
    (hfuel : 3 * mr + 3 ≤ fuel) :
    (∃ t, runStream env mr fuel Node.generate_query_or_respond
        ⟨[Msg.human question], 0⟩ = (t, none) ∧
      countRewrites t = mr ∧ lastNode t = some Node.generate_fallback ∧
      lastRetry t = some mr) ∧
    (∀ env2 : Env, ∀ s2 : ConvState, mr ≤ s2.retry_count →
      grade_documents env2 mr s2 = Except.ok Node.generate_fallback) :=
  ⟨runStream_never_yes env mr H1 H2 H3 H4 H5 mr fuel ⟨[Msg.human question], 0⟩
      (by simp) hfuel,
    fun env2 s2 h => grade_documents_cap env2 mr s2 h⟩

/-- C1 witness: with `max_retries = 2`, the recursion limit of 50, and an
always-no grader, the run does exactly 2 rewrites and ends in fallback. -/
theorem C1_retry_bound_witness :
    (∃ t, runStream envNo 2 recursionLimit Node.generate_query_or_respond
        ⟨[Msg.human "q"], 0⟩ = (t, none) ∧
      countRewrites t = 2 ∧ lastNode t = some Node.generate_fallback ∧
      lastRetry t = some 2) ∧
    (∀ env2 : Env, ∀ s2 : ConvState, 2 ≤ s2.retry_count →
      grade_documents env2 2 s2 = Except.ok Node.generate_fallback) :=
  C1_retry_bound envNo 2 recursionLimit "q"
    (fun _ => ⟨"calling tool", "widget query", rfl⟩)
    (fun _ => ⟨"no", rfl, by decide⟩)
    (fun _ => ⟨"context docs", rfl⟩)
    (fun _ => ⟨"better question", rfl⟩)
    (fun _ => ⟨"fallback answer", rfl⟩)
    (by decide)

/-- C10 witness: the seeded hit succeeds on an uninitialized chatbot. -/
theorem C10_hit_skips_init_check_witness :
    ∃ best, (cacheCheck envYes (⟨seededCache, 2, false⟩ : CachedRAGChatbot).cache
        "What is TaskFlow?").best_match = some best ∧
      (query envYes ⟨seededCache, 2, false⟩ "What is TaskFlow?").1 =
        Except.ok ⟨best.response, true,
          some ⟨best.prompt, best.vector_distance, best.cosine_similarity⟩⟩ ∧
      query_stream envYes ⟨seededCache, 2, false⟩ "What is TaskFlow?" =
        ([Event.cache_hit best.response
          ⟨best.prompt, best.vector_distance, best.cosine_similarity⟩], none,
          ⟨seededCache, 2, false⟩) :=
  C10_hit_skips_init_check envYes ⟨seededCache, 2, false⟩ "What is TaskFlow?" (by decide) rfl

/-- An environment whose response model raises an infrastructure error whose
text happens to mention recursion. -/
def envInfraRecursion : Env :=
  { envYes with respond := fun _ => Except.error "API recursionError: quota" }

/-- An environment whose retriever raises a plain infrastructure error. -/
def envRetErr : Env :=
  { envYes with retrieveDocs := fun _ => Except.error "boom" }

/-- A chatbot whose retry budget cannot fit inside the recursion limit of 50. -/
def botHighRetries : CachedRAGChatbot := ⟨emptyCache, 20, true⟩

/-- C5 counterexample: a model-invocation failure whose message merely contains
the word recursion is not propagated to the caller — `query` swallows it and
returns the degraded too-complex answer, because the handler classifies by
substring match on the exception text, not by the failure category. -/
theorem C5_counterexample :
    (query envInfraRecursion bot0 "q").1 =
      Except.ok ⟨tooComplexAnswer, false, none⟩ ∧
    (query envInfraRecursion bot0 "q").1 ≠
      Except.error "API recursionError: quota" := by
  refine ⟨rfl, ?_⟩
  intro h
  rw [show (query envInfraRecursion bot0 "q").1 =
    Except.ok ⟨tooComplexAnswer, false, none⟩ from rfl] at h
  exact Except.noConfusion h

/-- C5 as amended: when the run fails, `query` returns the degraded
too-complex answer (`cache_hit = false`) exactly when the exception text
contains the substring recursion, case-insensitively — which covers the
recursion-limit abort — and propagates the exception unchanged otherwise;
`query_stream` likewise emits its (differently worded) `error` event in the
first case and re-raises in the second. -/
theorem C5_error_handling (env : Env) (bot : CachedRAGChatbot) (q : String)
    (t : List TraceEntry) (e : String)
    (hmiss : (cacheCheck env bot.cache q).hit = false)
    (hg : bot.graphInitialized = true)
    (hrun : runStream env bot.max_retries recursionLimit Node.generate_query_or_respond
      ⟨[Msg.human q], 0⟩ = (t, some e)) :
    (query env bot q).1 =
      (if containsRecursion e then Except.ok ⟨tooComplexAnswer, false, none⟩
       else Except.error e) ∧
    query_stream env bot q =
      (Event.cache_miss :: t.map (fun en => Event.node_update en.node en.delta) ++
        (if containsRecursion e then [Event.error streamErrMsg] else []),
       if containsRecursion e then none else some e, bot) := by
  constructor
  · simp only [query]
    rw [hmiss, hg, hrun]
    cases hce : containsRecursion e <;> simp [hce]
  · simp only [query_stream]
    rw [hmiss, hg, hrun]
    cases hce : containsRecursion e <;> simp [hce]

/-- C5 witness: a retrieval failure not mentioning recursion is propagated
unchanged by `query` and re-raised by `query_stream`. -/
theorem C5_error_handling_witness :
    (query envRetErr bot0 "q").1 =
      (if containsRecursion "boom" then Except.ok ⟨tooComplexAnswer, false, none⟩
       else Except.error "boom") ∧
    query_stream envRetErr bot0 "q" =
      (Event.cache_miss ::
        ([⟨Node.generate_query_or_respond, [Msg.ai "calling tool" (some "widget query")],
          ⟨[Msg.human "q", Msg.ai "calling tool" (some "widget query")], 0⟩⟩] :
          List TraceEntry).map (fun en => Event.node_update en.node en.delta) ++
        (if containsRecursion "boom" then [Event.error streamErrMsg] else []),
       if containsRecursion "boom" then none else some "boom", bot0) :=
  C5_error_handling envRetErr bot0 "q"
    [⟨Node.generate_query_or_respond, [Msg.ai "calling tool" (some "widget query")],
      ⟨[Msg.human "q", Msg.ai "calling tool" (some "widget query")], 0⟩⟩]
    "boom" (by decide) rfl rfl

/-- C3 counterexample: in a first-pass-yes run, the `node_update` event for the
`retrieve` transition carries only the single message that node appended, not
the accumulated three-message list at that point; and on a recursion-limit
failure the terminal degraded answers of `query` and `query_stream` differ, so
the terminal answer of the stream is not always identical to the one of
`query`. -/
theorem C3_counterexample :
    query_stream envYes bot0 "q" =
      ([Event.cache_miss,
        Event.node_update Node.generate_query_or_respond
          [Msg.ai "calling tool" (some "widget query")],
        Event.node_update Node.retrieve [Msg.tool "context docs"],
        Event.node_update Node.generate_answer [Msg.ai "final answer" none],
        Event.complete (some "final answer")], none, bot0) ∧
    ([Msg.tool "context docs"] : List Msg) ≠
      [Msg.human "q", Msg.ai "calling tool" (some "widget query"),
        Msg.tool "context docs"] ∧
    (query envNo botHighRetries "q").1 =
      Except.ok ⟨tooComplexAnswer, false, none⟩ ∧
    (query_stream envNo botHighRetries "q").1.getLast? =
      some (Event.error streamErrMsg) ∧
    streamErrMsg ≠ tooComplexAnswer := by
  exact ⟨rfl, by decide, rfl, rfl, by decide⟩

/-- C3 as amended: `query_stream` first yields `cache_miss` (or the single
`cache_hit` event), then one `node_update` per executed transition carrying the
messages that transition appended (the update delta, not the accumulated list),
and on a run that completes without failure a terminal `complete` event whose
answer is identical to the answer `query` returns for the same question and
environment; failures are handled as in the error-handling contract, with
`query` and `query_stream` using different degraded texts on recursion-limit
aborts. -/
theorem C3_stream_refinement (env : Env) (bot : CachedRAGChatbot) (q : String)
    (t : List TraceEntry)
    (hmiss : (cacheCheck env bot.cache q).hit = false)
    (hg : bot.graphInitialized = true)
    (hrun : runStream env bot.max_retries recursionLimit Node.generate_query_or_respond
      ⟨[Msg.human q], 0⟩ = (t, none))
    (hne : t ≠ []) :
    query_stream env bot q =
      (Event.cache_miss :: t.map (fun en => Event.node_update en.node en.delta) ++
        [Event.complete (t.getLast?.map (fun en => (en.delta.getLastD default).content))],
       none, bot) ∧
    (query env bot q).1 = Except.ok
      ⟨(t.getLast?.map (fun en => (en.delta.getLastD default).content)).getD "",
        false, none⟩ := by
  obtain ⟨e0, he0⟩ : ∃ e0, t.getLast? = some e0 := by
    rcases ht : t.getLast? with _ | e0
    · exact absurd (List.getLast?_eq_none_iff.mp ht) hne
    · exact ⟨e0, rfl⟩
  constructor
  · simp only [query_stream]
    rw [hmiss, hg, hrun]
    rfl
  · simp only [query]
    rw [hmiss, hg, hrun]
    dsimp only
    rw [he0]
    rfl

/-- The trace of the first-pass-yes scenario under `envYes`. -/
def sceneTrace : List TraceEntry :=
  [⟨Node.generate_query_or_respond, [Msg.ai "calling tool" (some "widget query")],
    ⟨[Msg.human "q", Msg.ai "calling tool" (some "widget query")], 0⟩⟩,
   ⟨Node.retrieve, [Msg.tool "context docs"],
    ⟨[Msg.human "q", Msg.ai "calling tool" (some "widget query"),
      Msg.tool "context docs"], 0⟩⟩,
   ⟨Node.generate_answer, [Msg.ai "final answer" none],
    ⟨[Msg.human "q", Msg.ai "calling tool" (some "widget query"),
      Msg.tool "context docs", Msg.ai "final answer" none], 0⟩⟩]

/-- C3 witness: the first-pass-yes scenario, where the stream events and the
`query` answer agree on the final answer. -/
theorem C3_stream_refinement_witness :
    query_stream envYes bot0 "q" =
      (Event.cache_miss ::
        (sceneTrace.map (fun en => Event.node_update en.node en.delta)) ++
        [Event.complete (sceneTrace.getLast?.map
          (fun en => (en.delta.getLastD default).content))],
       none, bot0) ∧
    (query envYes bot0 "q").1 = Except.ok
      ⟨(sceneTrace.getLast?.map
        (fun en => (en.delta.getLastD default).content)).getD "", false, none⟩ :=
  C3_stream_refinement envYes bot0 "q" sceneTrace (by decide) rfl rfl (by decide)

end CachedRag
